import Mathlib

/-!
# Verification of `tts_load_balancer.js`

A shallow embedding of the TTS load balancer (config-driven reverse proxy
over a fixed pool of backend speech-synthesis workers) together with proofs
about its selection policy, circuit breaker, health probing, proxying and
status reporting.

Modelling conventions:
* Timestamps are `Nat` milliseconds; all reads of `Date.now()` inside one
  handler or probe invocation are modelled as a single instant `now`.
* Network outcomes (of `fetch` calls) are supplied as oracle values
  (`ProbeOutcome`, `DispatchOutcome`); a `fetch` that throws, including an
  abort caused by the request timer, is an `error` outcome.
* The registry (`instances` array) is a `List Instance`; the in-place
  mutation of a picked element is modelled by `List.set` at its index.
* Probe and handler functions are total Lean functions: a probe failure is
  folded into the returned state and can never escape as an exception,
  mirroring the `try`/`catch`/`finally` structure of the source.
-/

namespace TTSLB

/-- Configuration values read at startup with their fallbacks
(`tts_load_balancer.js` lines 20-27). -/
structure Config where
  maxActive : Nat
  upstreamTimeoutMs : Nat
  maxConsecFails : Nat
  circuitBreakerMs : Nat
  healthTimeoutMs : Nat
  healthIntervalMs : Nat
  deriving DecidableEq, Repr

/-- The fallback configuration (`MAX_ACTIVE = 4`, `UPSTREAM_TIMEOUT_MS = 30000`,
`MAX_CONSEC_FAILS = 10`, `CIRCUIT_BREAKER_MS = 180000`, `HEALTH_TIMEOUT_MS = 5000`,
`HEALTH_INTERVAL_MS = 30000`). -/
def defaultConfig : Config :=
  { maxActive := 4, upstreamTimeoutMs := 30000, maxConsecFails := 10,
    circuitBreakerMs := 180000, healthTimeoutMs := 5000, healthIntervalMs := 30000 }

/-- Per-backend mutable state, one entry per configured port
(`instances`, lines 35-43). -/
structure Instance where
  port : Nat
  healthy : Bool
  activeRequests : Nat
  consecutiveFailures : Nat
  circuitOpenUntil : Nat
  lastChecked : Nat
  deriving DecidableEq, Repr

/-- Initial state of one backend entry (lines 35-43): `healthy: false`,
`activeRequests: 0`, `consecutiveFailures: 0`, `circuitOpenUntil: 0`,
`lastChecked: 0`. -/
def initInstance (p : Nat) : Instance :=
  { port := p, healthy := false, activeRequests := 0, consecutiveFailures := 0,
    circuitOpenUntil := 0, lastChecked := 0 }

/-- The registry built from the configured port list (line 35). -/
def initInstances (ports : List Nat) : List Instance :=
  ports.map initInstance

/-- Outcome of one health-probe `fetch`: the promise resolved with a response
whose `ok` flag is given, or it threw (connection failure, abort timeout, ...). -/
inductive ProbeOutcome
  | response (ok : Bool)
  | error
  deriving DecidableEq, Repr

/-- Whether a probe outcome is a failure (non-`ok` response or thrown error). -/
def ProbeOutcome.failed : ProbeOutcome → Bool
  | .response ok => !ok
  | .error => true

/-- The breaker-opening check shared by the probe `finally` block (lines 72-76)
and the proxy `catch` block (lines 197-201): when `consecutiveFailures` has
reached `MAX_CONSEC_FAILS`, set `circuitOpenUntil = now + CIRCUIT_BREAKER_MS`
and reset `consecutiveFailures` to 0. -/
def openCircuitIfNeeded (cfg : Config) (now : Nat) (i : Instance) : Instance :=
  if cfg.maxConsecFails ≤ i.consecutiveFailures then
    { i with circuitOpenUntil := now + cfg.circuitBreakerMs, consecutiveFailures := 0 }
  else i

/-- `probeInstance` (lines 46-78). While the circuit is open the probe skips
the network call and just forces `healthy = false` and stamps `lastChecked`.
Otherwise the probe outcome is folded into the state: `healthy = res.ok`,
failures reset on `ok` and incremented otherwise (also on a thrown error),
and the `finally` block stamps `lastChecked` and runs the breaker check. -/
def probeInstance (cfg : Config) (now : Nat) (out : ProbeOutcome) (i : Instance) : Instance :=
  if now < i.circuitOpenUntil then
    { i with healthy := false, lastChecked := now }
  else
    let i1 :=
      match out with
      | .response ok =>
          if ok then { i with healthy := true, consecutiveFailures := 0 }
          else { i with healthy := false, consecutiveFailures := i.consecutiveFailures + 1 }
      | .error =>
          { i with healthy := false, consecutiveFailures := i.consecutiveFailures + 1 }
    openCircuitIfNeeded cfg now { i1 with lastChecked := now }

/-- Selection eligibility (lines 92-96): healthy, circuit closed
(`now >= circuitOpenUntil`) and below the per-backend concurrency cap. -/
def eligible (cfg : Config) (now : Nat) (i : Instance) : Bool :=
  i.healthy && decide (i.circuitOpenUntil ≤ now) && decide (i.activeRequests < cfg.maxActive)

/-- First candidate attaining the least `activeRequests`: the JS code stably
sorts the candidates by `activeRequests` and takes index 0 (lines 98-99),
which is exactly the first element achieving the minimum. -/
def leastLoaded (c : Nat × Instance) (cs : List (Nat × Instance)) : Nat × Instance :=
  cs.foldl (fun best q => if q.2.activeRequests < best.2.activeRequests then q else best) c

/-- `pickInstance` (lines 90-100), returning the chosen backend together with
its position in the registry (the position stands for the object reference the
JS code mutates in place). -/
def pickPair (cfg : Config) (now : Nat) (insts : List Instance) : Option (Nat × Instance) :=
  match insts.enum.filter (fun q => eligible cfg now q.2) with
  | [] => none
  | c :: cs => some (leastLoaded c cs)

/-- The value returned by `pickInstance` (lines 90-100): `null` when no
backend is eligible, otherwise the eligible backend with the least
`activeRequests`, first listed winning ties. -/
def pickInstance (cfg : Config) (now : Nat) (insts : List Instance) : Option Instance :=
  (pickPair cfg now insts).map (fun q => q.2)

/-- The response the gateway sends to its caller on the `/generate` route:
status, the `error`/`message`/`play_signal` JSON fields of the three
gateway-generated failure bodies (absent on a relayed backend response),
the forwarded headers and whether the body is relayed as a stream. -/
structure GenResponse where
  status : Nat
  errorFlag : Bool
  message : Option String
  playSignal : Option String
  headers : List (String × String)
  streamed : Bool
  deriving DecidableEq, Repr

/-- The 503 response sent when no backend is selectable (lines 123-127). -/
def noTTSResponse : GenResponse :=
  { status := 503, errorFlag := true,
    message := some "No TTS instance available. Please try again later.",
    playSignal := some "NO_TTS_AVAILABLE", headers := [], streamed := false }

/-- The 504 response sent when the dispatch timer fired (lines 183-187). -/
def timeoutResponse : GenResponse :=
  { status := 504, errorFlag := true, message := some "TTS instance timed out.",
    playSignal := some "TTS_INSTANCE_TIMEOUT", headers := [], streamed := false }

/-- The 502 response sent on any other dispatch error (lines 189-193). -/
def failureResponse : GenResponse :=
  { status := 502, errorFlag := true, message := some "TTS instance failure.",
    playSignal := some "TTS_INSTANCE_FAILURE", headers := [], streamed := false }

/-- Outcome of the proxied `fetch` to the backend's `/generate`: the promise
resolved with a response (status, headers, and whether a body stream is
present), or it threw; `timedOut` records whether the abort timer had fired
(line 138), which is exactly the dispatch-exceeded-the-timeout case. -/
inductive DispatchOutcome
  | response (status : Nat) (headers : List (String × String)) (hasBody : Bool)
  | error (timedOut : Bool)
  deriving DecidableEq, Repr

/-- The connection-management headers never forwarded (line 155). -/
def connectionHeaderNames : List String :=
  ["connection", "keep-alive", "transfer-encoding", "upgrade"]

/-- `res.ok` of a fetch response: status in the range 200-299. -/
def isOkStatus (s : Nat) : Bool :=
  decide (200 ≤ s) && decide (s < 300)

/-- Header propagation (lines 152-158): every upstream header is forwarded
except those whose lowercased name is connection-management. -/
def forwardHeaders (hs : List (String × String)) : List (String × String) :=
  hs.filter (fun kv => !(connectionHeaderNames.contains kv.1.toLower))

/-- Admission (line 132): `inst.activeRequests += 1`. -/
def admitRequest (i : Instance) : Instance :=
  { i with activeRequests := i.activeRequests + 1 }

/-- Release (line 204): `inst.activeRequests = Math.max(0, inst.activeRequests - 1)`
(the clamp coincides with truncated `Nat` subtraction). -/
def releaseRequest (i : Instance) : Instance :=
  { i with activeRequests := max (i.activeRequests - 1) 0 }

/-- The `try`/`catch` body of the `/generate` handler after admission
(lines 135-201), as a function of the dispatch outcome. On a resolved
response: relay status/filtered headers/stream, then reset
`consecutiveFailures` on `ok` and increment it otherwise (lines 173-175;
note: no health or breaker update on this path). On a thrown error
(lines 177-201): mark unhealthy, increment failures, answer 504 or 502
according to the timer flag, then run the breaker check. -/
def dispatchStep (cfg : Config) (now : Nat) (out : DispatchOutcome) (i : Instance) :
    Instance × GenResponse :=
  match out with
  | .response status hs hasBody =>
      let resp : GenResponse :=
        { status := status, errorFlag := false, message := none, playSignal := none,
          headers := forwardHeaders hs, streamed := hasBody }
      let i1 :=
        if isOkStatus status then { i with consecutiveFailures := 0 }
        else { i with consecutiveFailures := i.consecutiveFailures + 1 }
      (i1, resp)
  | .error timedOut =>
      let i1 := { i with healthy := false, consecutiveFailures := i.consecutiveFailures + 1 }
      let resp := if timedOut then timeoutResponse else failureResponse
      (openCircuitIfNeeded cfg now i1, resp)

/-- The handler's effect on the picked backend, end to end: admission
increment, the dispatch body, then the `finally`-scheduled release decrement
(lines 131-205). -/
def handleAdmitted (cfg : Config) (now : Nat) (out : DispatchOutcome) (i : Instance) :
    Instance × GenResponse :=
  let (i1, resp) := dispatchStep cfg now out (admitRequest i)
  (releaseRequest i1, resp)

/-- The whole `POST /generate` handler (lines 119-206) over the registry:
no eligible backend yields the 503 body and leaves the registry untouched;
otherwise the picked entry is updated in place. -/
def handleGenerate (cfg : Config) (now : Nat) (out : DispatchOutcome)
    (insts : List Instance) : List Instance × GenResponse :=
  match pickPair cfg now insts with
  | none => (insts, noTTSResponse)
  | some (k, i) =>
      let (i1, resp) := handleAdmitted cfg now out i
      (insts.set k i1, resp)

/-- The `upstream.body.on("error", ...)` listener (lines 164-167): a
mid-stream transport error on the relayed body marks the backend unhealthy
and changes nothing else. -/
def streamErrorStep (i : Instance) : Instance :=
  { i with healthy := false }

/-- Order of the effects the `/generate` handler performs (and schedules) for
one admitted request. `released` models the `setImmediate` decrement from the
`finally` block (lines 202-205): it is scheduled unconditionally when the
handler body finishes. The handler attaches no completion listener to the
piped stream, so no `streamFinished` effect ever appears in this sequence —
the release does not wait for a streamed body to end. -/
inductive ProxyEvent
  | admitted
  | dispatched
  | headersSent
  | streamStarted
  | streamFinished
  | bufferedSent
  | errorSent (status : Nat)
  | released
  deriving DecidableEq, Repr

/-- The sequence of effects of one admitted `/generate` request, in the order
the handler performs or schedules them (lines 131-205). -/
def generateTrace (out : DispatchOutcome) : List ProxyEvent :=
  [.admitted, .dispatched] ++
    (match out with
     | .response _ _ true => [.headersSent, .streamStarted]
     | .response _ _ false => [.headersSent, .bufferedSent]
     | .error t => [.errorSent (if t then 504 else 502)]) ++
    [.released]

/-- Summary of one backend in the `GET /health` report (lines 108-114). -/
structure InstanceSummary where
  port : Nat
  healthy : Bool
  activeRequests : Nat
  circuitOpenUntil : Nat
  lastChecked : Nat
  deriving DecidableEq, Repr

/-- The per-backend summary `GET /health` emits (lines 108-114). -/
def summarize (i : Instance) : InstanceSummary :=
  { port := i.port, healthy := i.healthy, activeRequests := i.activeRequests,
    circuitOpenUntil := i.circuitOpenUntil, lastChecked := i.lastChecked }

/-- The aggregate document `GET /health` returns (lines 103-116). -/
structure HealthDoc where
  status : String
  healthyCount : Nat
  instances : List InstanceSummary
  deriving DecidableEq, Repr

/-- The `GET /health` handler (lines 103-116): `healthyCount` counts entries
with `healthy && now >= circuitOpenUntil`; status is `"ok"` iff that count is
positive. A pure function of the registry: no backend state is written. -/
def healthEndpoint (insts : List Instance) (now : Nat) : HealthDoc :=
  let healthyCount :=
    (insts.filter (fun i => i.healthy && decide (i.circuitOpenUntil ≤ now))).length
  { status := if 0 < healthyCount then "ok" else "degraded",
    healthyCount := healthyCount,
    instances := insts.map summarize }

/-- One externally triggered step of the system: a probe of backend `k`
completing with some outcome, a `/generate` request dispatching with some
outcome, or a mid-stream body error callback on backend `k`. -/
inductive SysEvent
  | probe (k : Nat) (now : Nat) (out : ProbeOutcome)
  | generate (now : Nat) (out : DispatchOutcome)
  | streamError (k : Nat)
  deriving DecidableEq, Repr

/-- Registry transition for one system event. -/
def stepEvent (cfg : Config) (insts : List Instance) : SysEvent → List Instance
  | .probe k now out =>
      match insts.get? k with
      | some i => insts.set k (probeInstance cfg now out i)
      | none => insts
  | .generate now out => (handleGenerate cfg now out insts).1
  | .streamError k =>
      match insts.get? k with
      | some i => insts.set k (streamErrorStep i)
      | none => insts

/-- Run a sequence of system events from a registry state. -/
def runEvents (cfg : Config) (insts : List Instance) (evs : List SysEvent) : List Instance :=
  evs.foldl (stepEvent cfg) insts

/-- Whether an event is a probe that received an OK response. -/
def probeSucceeded : SysEvent → Bool
  | .probe _ _ (.response true) => true
  | _ => false

/-- No probe in the event sequence received an OK response. -/
def noProbeSuccess (evs : List SysEvent) : Bool :=
  evs.all (fun e => !(probeSucceeded e))

/-- JSON values, as produced by the `express.json` body middleware (line 32)
and consumed by `JSON.stringify` (line 145). String escaping is elided: we
only consider strings without characters that `JSON.stringify` escapes. -/
inductive Json
  | null
  | bool (b : Bool)
  | num (n : Int)
  | str (s : String)
  | arr (elts : List Json)
  | obj (fields : List (String × Json))
  deriving Repr

mutual

/-- `JSON.stringify` (line 145) on the modelled JSON values: compact output,
no added whitespace. -/
def Json.stringify : Json → String
  | .null => "null"
  | .bool true => "true"
  | .bool false => "false"
  | .num n => toString n
  | .str s => "\"" ++ s ++ "\""
  | .arr elts => "[" ++ Json.stringifyElems elts ++ "]"
  | .obj fields => "\x7b" ++ Json.stringifyFields fields ++ "\x7d"

/-- Comma-separated serialization of array elements. -/
def Json.stringifyElems : List Json → String
  | [] => ""
  | [x] => Json.stringify x
  | x :: y :: xs => Json.stringify x ++ "," ++ Json.stringifyElems (y :: xs)

/-- Comma-separated serialization of object fields. -/
def Json.stringifyFields : List (String × Json) → String
  | [] => ""
  | [kv] => "\"" ++ kv.1 ++ "\":" ++ Json.stringify kv.2
  | kv :: kw :: xs =>
      "\"" ++ kv.1 ++ "\":" ++ Json.stringify kv.2 ++ "," ++ Json.stringifyFields (kw :: xs)

end

/-- The `express.json({ limit: "2mb" })` byte limit (line 32): 2 MiB. -/
def bodyLimitBytes : Nat := 2 * 1024 * 1024

/-- Whether the JSON body middleware (line 32) admits a request body of the
given size; larger bodies are rejected before the route handler runs. -/
def jsonBodyAdmits (bodySizeBytes : Nat) : Bool :=
  decide (bodySizeBytes ≤ bodyLimitBytes)

/-- The request the gateway issues to the chosen backend (lines 142-147):
`POST`, JSON content type, body re-serialized from the parsed `req.body`
(`JSON.stringify(req.body || \x7b\x7d)`); `none` stands for an absent body. -/
structure UpstreamRequest where
  method : String
  contentType : String
  body : String
  deriving DecidableEq, Repr

/-- Build the outgoing backend request (lines 142-147). -/
def buildUpstreamRequest (reqBody : Option Json) : UpstreamRequest :=
  { method := "POST", contentType := "application/json",
    body := Json.stringify (reqBody.getD (Json.obj [])) }

/-- A healthy backend with 3 in-flight requests (the spec's selector example). -/
def exInstA : Instance :=
  { port := 8100, healthy := true, activeRequests := 3, consecutiveFailures := 0,
    circuitOpenUntil := 0, lastChecked := 0 }

/-- A healthy backend with 1 in-flight request. -/
def exInstB : Instance :=
  { port := 8101, healthy := true, activeRequests := 1, consecutiveFailures := 0,
    circuitOpenUntil := 0, lastChecked := 0 }

/-- A healthy backend with 2 in-flight requests. -/
def exInstC : Instance :=
  { port := 8102, healthy := true, activeRequests := 2, consecutiveFailures := 0,
    circuitOpenUntil := 0, lastChecked := 0 }

/-- A healthy backend with a clean failure count. -/
def cexHealthyClean : Instance :=
  { port := 8200, healthy := true, activeRequests := 0, consecutiveFailures := 0,
    circuitOpenUntil := 0, lastChecked := 0 }

/-- A healthy backend one failure short of the default breaker threshold. -/
def cexNearThreshold : Instance :=
  { port := 8201, healthy := true, activeRequests := 2, consecutiveFailures := 9,
    circuitOpenUntil := 0, lastChecked := 0 }

/-- A healthy backend saturated at the default per-backend concurrency cap. -/
def cexAtCap : Instance :=
  { port := 8202, healthy := true, activeRequests := 4, consecutiveFailures := 0,
    circuitOpenUntil := 0, lastChecked := 50 }

/-- An unhealthy backend with a few accumulated probe failures. -/
def probeExInst : Instance :=
  { port := 8300, healthy := false, activeRequests := 0, consecutiveFailures := 3,
    circuitOpenUntil := 0, lastChecked := 0 }

/-! ## Selector lemmas -/

theorem leastLoaded_cons (c q : Nat × Instance) (cs : List (Nat × Instance)) :
    leastLoaded c (q :: cs)
      = leastLoaded (if q.2.activeRequests < c.2.activeRequests then q else c) cs := rfl

theorem leastLoaded_mem (c : Nat × Instance) (cs : List (Nat × Instance)) :
    leastLoaded c cs ∈ c :: cs := by
  induction cs generalizing c with
  | nil => simp [leastLoaded]
  | cons q cs ih =>
    rw [leastLoaded_cons]
    by_cases hq : q.2.activeRequests < c.2.activeRequests
    · rw [if_pos hq]
      rcases List.mem_cons.mp (ih q) with h | h
      · rw [h]; exact List.mem_cons_of_mem _ (List.mem_cons_self _ _)
      · exact List.mem_cons_of_mem _ (List.mem_cons_of_mem _ h)
    · rw [if_neg hq]
      rcases List.mem_cons.mp (ih c) with h | h
      · rw [h]; exact List.mem_cons_self _ _
      · exact List.mem_cons_of_mem _ (List.mem_cons_of_mem _ h)

theorem leastLoaded_le (c : Nat × Instance) (cs : List (Nat × Instance)) :
    ∀ x ∈ c :: cs, (leastLoaded c cs).2.activeRequests ≤ x.2.activeRequests := by
  induction cs generalizing c with
  | nil =>
    intro x hx
    simp only [List.mem_singleton] at hx
    subst hx
    simp [leastLoaded]
  | cons q cs ih =>
    intro x hx
    rw [leastLoaded_cons]
    have hd : (if q.2.activeRequests < c.2.activeRequests then q else c).2.activeRequests
          ≤ c.2.activeRequests
        ∧ (if q.2.activeRequests < c.2.activeRequests then q else c).2.activeRequests
          ≤ q.2.activeRequests := by
      by_cases hq : q.2.activeRequests < c.2.activeRequests
      · rw [if_pos hq]; exact ⟨Nat.le_of_lt hq, Nat.le_refl _⟩
      · rw [if_neg hq]; exact ⟨Nat.le_refl _, Nat.le_of_not_lt hq⟩
    have hhead := ih (if q.2.activeRequests < c.2.activeRequests then q else c) _
      (List.mem_cons_self _ _)
    rcases List.mem_cons.mp hx with h | h
    · rw [h]; exact Nat.le_trans hhead hd.1
    · rcases List.mem_cons.mp h with h2 | h2
      · rw [h2]; exact Nat.le_trans hhead hd.2
      · exact ih _ x (List.mem_cons_of_mem _ h2)

theorem leastLoaded_split (c : Nat × Instance) (cs : List (Nat × Instance)) :
    ∃ l₁ l₂, c :: cs = l₁ ++ leastLoaded c cs :: l₂
      ∧ ∀ x ∈ l₁, (leastLoaded c cs).2.activeRequests < x.2.activeRequests := by
  induction cs generalizing c with
  | nil => exact ⟨[], [], rfl, by intro x hx; cases hx⟩
  | cons q cs ih =>
    rw [leastLoaded_cons]
    by_cases hq : q.2.activeRequests < c.2.activeRequests
    · rw [if_pos hq]
      obtain ⟨l₁, l₂, heq, hlt⟩ := ih q
      refine ⟨c :: l₁, l₂, ?_, ?_⟩
      · rw [List.cons_append, ← heq]
      · intro x hx
        rcases List.mem_cons.mp hx with h | h
        · rw [h]
          exact Nat.lt_of_le_of_lt (leastLoaded_le q cs q (List.mem_cons_self _ _)) hq
        · exact hlt x h
    · rw [if_neg hq]
      obtain ⟨l₁, l₂, heq, hlt⟩ := ih c
      cases l₁ with
      | nil =>
        simp only [List.nil_append] at heq
        injection heq with h1 h2
        refine ⟨[], q :: cs, ?_, ?_⟩
        · rw [List.nil_append, ← h1]
        · intro x hx; cases hx
      | cons a l₁x =>
        simp only [List.cons_append] at heq
        injection heq with h1 h2
        refine ⟨c :: q :: l₁x, l₂, ?_, ?_⟩
        · simp only [List.cons_append]
          rw [← h2]
        · intro x hx
          have hcx : (leastLoaded c cs).2.activeRequests < c.2.activeRequests := by
            have h3 := hlt a (List.mem_cons_self _ _)
            rw [← h1] at h3
            exact h3
          rcases List.mem_cons.mp hx with h | h
          · rw [h]; exact hcx
          · rcases List.mem_cons.mp h with h3 | h3
            · rw [h3]; exact Nat.lt_of_lt_of_le hcx (Nat.le_of_not_lt hq)
            · exact hlt x (List.mem_cons_of_mem _ h3)

theorem filter_map_snd (p : Instance → Bool) :
    ∀ l : List (Nat × Instance),
      (l.filter (fun q => p q.2)).map Prod.snd = (l.map Prod.snd).filter p := by
  intro l
  induction l with
  | nil => rfl
  | cons q l ih => by_cases h : p q.2 <;> simp [List.filter_cons, h, ih]

theorem filter_enum_map_snd (cfg : Config) (now : Nat) (insts : List Instance) :
    (insts.enum.filter (fun q => eligible cfg now q.2)).map Prod.snd
      = insts.filter (eligible cfg now) := by
  rw [filter_map_snd, List.enum_map_snd]

theorem snd_mem_of_mem_enum {l : List Instance} {q : Nat × Instance}
    (h : q ∈ l.enum) : q.2 ∈ l := by
  have hg := List.mem_enum_iff_get?.mp h
  exact List.mem_iff_get?.mpr ⟨q.1, hg⟩

theorem pickPair_eq_none_iff (cfg : Config) (now : Nat) (insts : List Instance) :
    pickPair cfg now insts = none ↔ ∀ i ∈ insts, eligible cfg now i = false := by
  rcases hfe : insts.enum.filter (fun q => eligible cfg now q.2) with _ | ⟨c, cs⟩
  · simp only [pickPair, hfe]
    constructor
    · intro _ i hi
      have hall := List.filter_eq_nil_iff.mp hfe
      obtain ⟨n, hn⟩ := List.mem_iff_get?.mp hi
      have hq : (n, i) ∈ insts.enum := List.mem_enum_iff_get?.mpr hn
      have := hall _ hq
      simpa using this
    · intro _; trivial
  · simp only [pickPair, hfe]
    constructor
    · intro hcontra; cases hcontra
    · intro hall
      exfalso
      have hc : c ∈ insts.enum.filter (fun q => eligible cfg now q.2) :=
        hfe ▸ List.mem_cons_self c cs
      have helig := List.of_mem_filter hc
      have hmem : c.2 ∈ insts := snd_mem_of_mem_enum (List.mem_of_mem_filter hc)
      have := hall c.2 hmem
      rw [this] at helig
      cases helig

theorem pickPair_isSome_iff (cfg : Config) (now : Nat) (insts : List Instance) :
    (pickPair cfg now insts).isSome = true ↔ ∃ i ∈ insts, eligible cfg now i = true := by
  constructor
  · intro h
    by_contra hno
    push_neg at hno
    have hall : ∀ i ∈ insts, eligible cfg now i = false := by
      intro i hi
      have := hno i hi
      exact Bool.eq_false_iff.mpr this
    rw [(pickPair_eq_none_iff cfg now insts).mpr hall] at h
    cases h
  · intro ⟨i, hi, helig⟩
    cases hp : pickPair cfg now insts with
    | some q => rfl
    | none =>
      have := (pickPair_eq_none_iff cfg now insts).mp hp i hi
      rw [helig] at this
      cases this

theorem pickPair_sound (cfg : Config) (now : Nat) (insts : List Instance)
    (k : Nat) (b : Instance) (h : pickPair cfg now insts = some (k, b)) :
    insts.get? k = some b ∧ eligible cfg now b = true
    ∧ (∀ i ∈ insts, eligible cfg now i = true → b.activeRequests ≤ i.activeRequests)
    ∧ ∃ l₁ l₂, insts.filter (eligible cfg now) = l₁ ++ b :: l₂
        ∧ ∀ x ∈ l₁, b.activeRequests < x.activeRequests := by
  rcases hfe : insts.enum.filter (fun q => eligible cfg now q.2) with _ | ⟨c, cs⟩
  · simp only [pickPair, hfe] at h; cases h
  · simp only [pickPair, hfe] at h
    have hLL : leastLoaded c cs = (k, b) := by
      injection h with h1
    have hmemf : (k, b) ∈ insts.enum.filter (fun q => eligible cfg now q.2) := by
      rw [hfe]; exact hLL ▸ leastLoaded_mem c cs
    have hget : insts.get? k = some b :=
      List.mem_enum_iff_get?.mp (List.mem_of_mem_filter hmemf)
    have helig : eligible cfg now b = true := by
      have := List.of_mem_filter hmemf
      simpa using this
    refine ⟨hget, helig, ?_, ?_⟩
    · intro i hi hielig
      obtain ⟨n, hn⟩ := List.mem_iff_get?.mp hi
      have hqe : (n, i) ∈ insts.enum := List.mem_enum_iff_get?.mpr hn
      have hqf : (n, i) ∈ insts.enum.filter (fun q => eligible cfg now q.2) :=
        List.mem_filter.mpr ⟨hqe, by simpa using hielig⟩
      rw [hfe] at hqf
      have := leastLoaded_le c cs (n, i) hqf
      rw [hLL] at this
      exact this
    · obtain ⟨l₁, l₂, heq, hlt⟩ := leastLoaded_split c cs
      rw [hLL] at heq hlt
      refine ⟨l₁.map Prod.snd, l₂.map Prod.snd, ?_, ?_⟩
      · rw [← filter_enum_map_snd cfg now insts, hfe, heq]
        simp
      · intro x hx
        obtain ⟨q, hq, hqx⟩ := List.mem_map.mp hx
        have := hlt q hq
        rw [hqx] at this
        exact this

/-! ## Claim theorems -/

/-- Claim C2. The selector, as a pure function of the registry snapshot and the
current time, returns some backend iff at least one backend is eligible
(healthy, circuit closed, below the concurrency cap); a returned backend is
eligible — hence never one whose circuit is open — and has the least
`activeRequests` among eligible backends, ties broken by original
configuration order (it is the first listed among the minimal ones). -/
theorem pickInstance_spec (cfg : Config) (now : Nat) (insts : List Instance) :
    ((pickInstance cfg now insts).isSome = true ↔ ∃ i ∈ insts, eligible cfg now i = true)
    ∧ ∀ b, pickInstance cfg now insts = some b →
        b ∈ insts ∧ eligible cfg now b = true
        ∧ b.circuitOpenUntil ≤ now
        ∧ (∀ i ∈ insts, eligible cfg now i = true → b.activeRequests ≤ i.activeRequests)
        ∧ ∃ l₁ l₂, insts.filter (eligible cfg now) = l₁ ++ b :: l₂
            ∧ ∀ x ∈ l₁, b.activeRequests < x.activeRequests := by
  constructor
  · have hsome : (pickInstance cfg now insts).isSome = (pickPair cfg now insts).isSome := by
      rw [pickInstance]
      cases pickPair cfg now insts <;> rfl
    rw [hsome]
    exact pickPair_isSome_iff cfg now insts
  · intro b hb
    rw [pickInstance] at hb
    obtain ⟨⟨k, b'⟩, hpk, hb'⟩ := Option.map_eq_some'.mp hb
    subst hb'
    obtain ⟨hget, helig, hmin, hsplit⟩ := pickPair_sound cfg now insts k b' hpk
    have hmem : b' ∈ insts := List.mem_iff_get?.mpr ⟨k, hget⟩
    have hcirc : b'.circuitOpenUntil ≤ now := by
      have h1 := helig
      simp only [eligible, Bool.and_eq_true, decide_eq_true_eq] at h1
      exact h1.1.2
    exact ⟨hmem, helig, hcirc, hmin, hsplit⟩

/-- Witness for claim C2 at a concrete registry: with eligible active-request
counts [3,1,2] the selector returns the backend with count 1, and it is an
eligible member of the registry with a closed circuit. -/
theorem pickInstance_spec_witness :
    exInstB ∈ [exInstA, exInstB, exInstC]
    ∧ eligible defaultConfig 0 exInstB = true
    ∧ exInstB.circuitOpenUntil ≤ 0 := by
  have h := (pickInstance_spec defaultConfig 0 [exInstA, exInstB, exInstC]).2 exInstB (by decide)
  exact ⟨h.1, h.2.1, h.2.2.1⟩

/-! ## Breaker and accounting lemmas -/

theorem openCircuitIfNeeded_activeRequests (cfg : Config) (now : Nat) (i : Instance) :
    (openCircuitIfNeeded cfg now i).activeRequests = i.activeRequests := by
  rw [openCircuitIfNeeded]; split <;> rfl

theorem openCircuitIfNeeded_healthy (cfg : Config) (now : Nat) (i : Instance) :
    (openCircuitIfNeeded cfg now i).healthy = i.healthy := by
  rw [openCircuitIfNeeded]; split <;> rfl

theorem handleAdmitted_fst (cfg : Config) (now : Nat) (out : DispatchOutcome) (i : Instance) :
    (handleAdmitted cfg now out i).1
      = releaseRequest (dispatchStep cfg now out (admitRequest i)).1 := rfl

theorem dispatchStep_error (cfg : Config) (now : Nat) (t : Bool) (i : Instance) :
    dispatchStep cfg now (.error t) i
      = (openCircuitIfNeeded cfg now
          { i with healthy := false, consecutiveFailures := i.consecutiveFailures + 1 },
         if t then timeoutResponse else failureResponse) := rfl

theorem dispatchStep_response (cfg : Config) (now : Nat) (status : Nat)
    (hs : List (String × String)) (hasBody : Bool) (i : Instance) :
    dispatchStep cfg now (.response status hs hasBody) i
      = (if isOkStatus status then { i with consecutiveFailures := 0 }
         else { i with consecutiveFailures := i.consecutiveFailures + 1 },
         { status := status, errorFlag := false, message := none, playSignal := none,
           headers := forwardHeaders hs, streamed := hasBody }) := by
  rw [dispatchStep]

/-- Claim C6. Every probe: while the circuit is open the prober forces
`healthy = false` and stamps `lastChecked` without any network call; otherwise
an OK response yields `healthy = true` with `consecutiveFailures = 0`, and a
non-OK response, error or timeout yields `healthy = false` with
`consecutiveFailures` incremented by 1 (stated below the breaker threshold,
whose separate transition is the subject of the breaker claims). A probe
failure is never propagated to any caller: `probeInstance` is a total
function into backend state, mirroring the handler's `try`/`catch`. -/
theorem probeInstance_spec (cfg : Config) (now : Nat) (out : ProbeOutcome) (i : Instance) :
    (now < i.circuitOpenUntil →
      probeInstance cfg now out i = { i with healthy := false, lastChecked := now })
    ∧ (i.circuitOpenUntil ≤ now → out = .response true → 0 < cfg.maxConsecFails →
      probeInstance cfg now out i
        = { i with healthy := true, consecutiveFailures := 0, lastChecked := now })
    ∧ (i.circuitOpenUntil ≤ now → out.failed = true →
      i.consecutiveFailures + 1 < cfg.maxConsecFails →
      probeInstance cfg now out i
        = { i with healthy := false, consecutiveFailures := i.consecutiveFailures + 1,
                   lastChecked := now }) := by
  refine ⟨fun h => by simp [probeInstance, h], ?_, ?_⟩
  · intro h hout hthr
    subst hout
    have hnlt : ¬ now < i.circuitOpenUntil := Nat.not_lt.mpr h
    have hthr2 : ¬ cfg.maxConsecFails ≤ 0 := by omega
    simp [probeInstance, hnlt, openCircuitIfNeeded, hthr2]
  · intro h hout hthr
    have hnlt : ¬ now < i.circuitOpenUntil := Nat.not_lt.mpr h
    have hthr2 : ¬ cfg.maxConsecFails ≤ i.consecutiveFailures + 1 := by omega
    cases out with
    | response ok =>
      cases ok with
      | true => simp [ProbeOutcome.failed] at hout
      | false => simp [probeInstance, hnlt, openCircuitIfNeeded, hthr2]
    | error => simp [probeInstance, hnlt, openCircuitIfNeeded, hthr2]

/-- Witness for claim C6: an OK probe of a concrete unhealthy backend turns it
healthy with a clean failure count and a fresh `lastChecked` stamp. -/
theorem probeInstance_spec_witness :
    probeInstance defaultConfig 40 (.response true) probeExInst
      = { probeExInst with healthy := true, consecutiveFailures := 0, lastChecked := 40 } :=
  (probeInstance_spec defaultConfig 40 (.response true) probeExInst).2.1
    (by decide) rfl (by decide)

/-- Claim C1 (corrected). On a dispatch error (the proxied fetch threw — timeout
or any other transport failure) the handler marks the backend unhealthy,
increments `consecutiveFailures`, and opens the circuit (with failure-count
reset) exactly when the updated count reaches the threshold. On a non-2xx
backend response that arrives without a transport error, however, only
`consecutiveFailures` is incremented: `healthy` and `circuitOpenUntil` are
left untouched and the threshold is not checked on that path. -/
theorem generate_failure_accounting (cfg : Config) (now : Nat) (i : Instance) :
    (∀ t : Bool,
      (handleAdmitted cfg now (.error t) i).1.healthy = false
      ∧ (cfg.maxConsecFails ≤ i.consecutiveFailures + 1 →
          (handleAdmitted cfg now (.error t) i).1.circuitOpenUntil
              = now + cfg.circuitBreakerMs
          ∧ (handleAdmitted cfg now (.error t) i).1.consecutiveFailures = 0)
      ∧ (i.consecutiveFailures + 1 < cfg.maxConsecFails →
          (handleAdmitted cfg now (.error t) i).1.consecutiveFailures
              = i.consecutiveFailures + 1
          ∧ (handleAdmitted cfg now (.error t) i).1.circuitOpenUntil = i.circuitOpenUntil))
    ∧ ∀ status hs hasBody, isOkStatus status = false →
        (handleAdmitted cfg now (.response status hs hasBody) i).1.consecutiveFailures
            = i.consecutiveFailures + 1
        ∧ (handleAdmitted cfg now (.response status hs hasBody) i).1.healthy = i.healthy
        ∧ (handleAdmitted cfg now (.response status hs hasBody) i).1.circuitOpenUntil
            = i.circuitOpenUntil := by
  constructor
  · intro t
    by_cases hth : cfg.maxConsecFails ≤ i.consecutiveFailures + 1
    · refine ⟨?_, fun _ => ⟨?_, ?_⟩, fun hlt => absurd hth (by omega)⟩ <;>
        simp [handleAdmitted_fst, dispatchStep_error, admitRequest, releaseRequest,
              openCircuitIfNeeded, hth]
    · refine ⟨?_, fun hge => absurd hge hth, fun _ => ⟨?_, ?_⟩⟩ <;>
        simp [handleAdmitted_fst, dispatchStep_error, admitRequest, releaseRequest,
              openCircuitIfNeeded, hth]
  · intro status hs hasBody hok
    refine ⟨?_, ?_, ?_⟩ <;>
      simp [handleAdmitted_fst, dispatchStep_response, admitRequest, releaseRequest, hok]

/-- Witness for claim C1: a timed-out dispatch to a concrete healthy backend
with a clean failure count marks it unhealthy and bumps its failure count. -/
theorem generate_failure_accounting_witness :
    (handleAdmitted defaultConfig 60 (.error true) cexHealthyClean).1.healthy = false
    ∧ (handleAdmitted defaultConfig 60 (.error true) cexHealthyClean).1.consecutiveFailures
        = cexHealthyClean.consecutiveFailures + 1 := by
  have h := (generate_failure_accounting defaultConfig 60 cexHealthyClean).1 true
  exact ⟨h.1, (h.2.2 (by decide)).1⟩

/-- Counterexample to claim C1 as stated: a 500 backend response that arrives
without a transport error leaves the backend marked healthy (the claim
requires it to be marked unhealthy); only the failure count moves. -/
theorem generate_non2xx_leaves_healthy :
    (handleAdmitted defaultConfig 1000 (.response 500 [] false) cexHealthyClean).1.healthy = true
    ∧ (handleAdmitted defaultConfig 1000
        (.response 500 [] false) cexHealthyClean).1.consecutiveFailures = 1 := by decide

/-- Claim C3 (corrected). A change of `circuitOpenUntil` — on the probe path or
the proxy path — can only be the opening transition: it sets
`circuitOpenUntil = now + circuitBreakerDuration` and resets
`consecutiveFailures` to 0 (reset on open, not on later close). The threshold
does open the circuit, strictly into the future for a positive duration, when
reached through a probe failure or a dispatch error; but the non-2xx-response
accounting path performs no threshold check, so `consecutiveFailures` can
reach the threshold there without the circuit opening in that step. -/
theorem circuit_open_transition (cfg : Config) (now : Nat) (i : Instance) :
    (∀ out : ProbeOutcome,
      (probeInstance cfg now out i).circuitOpenUntil ≠ i.circuitOpenUntil →
        (probeInstance cfg now out i).circuitOpenUntil = now + cfg.circuitBreakerMs
        ∧ (probeInstance cfg now out i).consecutiveFailures = 0)
    ∧ (∀ dout : DispatchOutcome,
      (handleAdmitted cfg now dout i).1.circuitOpenUntil ≠ i.circuitOpenUntil →
        (handleAdmitted cfg now dout i).1.circuitOpenUntil = now + cfg.circuitBreakerMs
        ∧ (handleAdmitted cfg now dout i).1.consecutiveFailures = 0)
    ∧ (∀ t : Bool, cfg.maxConsecFails ≤ i.consecutiveFailures + 1 →
        0 < cfg.circuitBreakerMs →
        now < (handleAdmitted cfg now (.error t) i).1.circuitOpenUntil
        ∧ (handleAdmitted cfg now (.error t) i).1.consecutiveFailures = 0)
    ∧ (∀ out : ProbeOutcome, i.circuitOpenUntil ≤ now → out.failed = true →
        cfg.maxConsecFails ≤ i.consecutiveFailures + 1 → 0 < cfg.circuitBreakerMs →
        now < (probeInstance cfg now out i).circuitOpenUntil
        ∧ (probeInstance cfg now out i).consecutiveFailures = 0) := by
  refine ⟨?_, ?_, ?_, ?_⟩
  · intro out hne
    by_cases hskip : now < i.circuitOpenUntil
    · exfalso; apply hne; simp [probeInstance, hskip]
    · cases out with
      | response ok =>
        cases ok with
        | true =>
          by_cases hth : cfg.maxConsecFails ≤ 0
          · constructor <;> simp [probeInstance, hskip, openCircuitIfNeeded, hth]
          · exfalso; apply hne
            simp [probeInstance, hskip, openCircuitIfNeeded, hth]
        | false =>
          by_cases hth : cfg.maxConsecFails ≤ i.consecutiveFailures + 1
          · constructor <;> simp [probeInstance, hskip, openCircuitIfNeeded, hth]
          · exfalso; apply hne
            simp [probeInstance, hskip, openCircuitIfNeeded, hth]
      | error =>
        by_cases hth : cfg.maxConsecFails ≤ i.consecutiveFailures + 1
        · constructor <;> simp [probeInstance, hskip, openCircuitIfNeeded, hth]
        · exfalso; apply hne
          simp [probeInstance, hskip, openCircuitIfNeeded, hth]
  · intro dout hne
    cases dout with
    | response status hs hasBody =>
      exfalso; apply hne
      by_cases hok : isOkStatus status <;>
        simp [handleAdmitted_fst, dispatchStep_response, admitRequest, releaseRequest, hok]
    | error t =>
      by_cases hth : cfg.maxConsecFails ≤ i.consecutiveFailures + 1
      · constructor <;>
          simp [handleAdmitted_fst, dispatchStep_error, admitRequest, releaseRequest,
                openCircuitIfNeeded, hth]
      · exfalso; apply hne
        simp [handleAdmitted_fst, dispatchStep_error, admitRequest, releaseRequest,
              openCircuitIfNeeded, hth]
  · intro t hth hdur
    constructor <;>
      simp [handleAdmitted_fst, dispatchStep_error, admitRequest, releaseRequest,
            openCircuitIfNeeded, hth] <;> omega
  · intro out hle hfail hth hdur
    have hnlt : ¬ now < i.circuitOpenUntil := Nat.not_lt.mpr hle
    cases out with
    | response ok =>
      cases ok with
      | true => simp [ProbeOutcome.failed] at hfail
      | false =>
        constructor <;>
          simp [probeInstance, hnlt, openCircuitIfNeeded, hth] <;> omega
    | error =>
      constructor <;>
        simp [probeInstance, hnlt, openCircuitIfNeeded, hth] <;> omega

/-- Witness for claim C3: a dispatch error on a concrete backend one failure
short of the default threshold opens its circuit strictly into the future and
resets the failure count. -/
theorem circuit_open_transition_witness :
    900 < (handleAdmitted defaultConfig 900 (.error false) cexNearThreshold).1.circuitOpenUntil
    ∧ (handleAdmitted defaultConfig 900 (.error false) cexNearThreshold).1.consecutiveFailures
        = 0 :=
  (circuit_open_transition defaultConfig 900 cexNearThreshold).2.2.1 false
    (by decide) (by decide)

/-- Counterexample to claim C3 as stated: a non-2xx response (without transport
error) raises `consecutiveFailures` of a concrete backend to exactly the
default threshold, yet in that same step the circuit is not opened
(`circuitOpenUntil` stays 0, not `now + duration`) and the count is not
reset. -/
theorem non2xx_threshold_no_open :
    (handleAdmitted defaultConfig 777 (.response 500 [] true)
        cexNearThreshold).1.consecutiveFailures = defaultConfig.maxConsecFails
    ∧ (handleAdmitted defaultConfig 777 (.response 500 [] true)
        cexNearThreshold).1.circuitOpenUntil = 0 := by decide

/-- Claim C4 (corrected). Per admitted request, `activeRequests` is incremented
by exactly 1 at admission, untouched by the dispatch accounting, and
decremented by exactly 1 by the scheduled release, returning to its
pre-request value on every outcome (the clamped decrement keeping it
non-negative); the release is the last effect the handler schedules — but it
is scheduled when the handler body finishes, without waiting for a streamed
body to complete (see the counterexample). -/
theorem activeRequests_balance (cfg : Config) (now : Nat) (out : DispatchOutcome)
    (i : Instance) :
    (admitRequest i).activeRequests = i.activeRequests + 1
    ∧ (dispatchStep cfg now out (admitRequest i)).1.activeRequests = i.activeRequests + 1
    ∧ (handleAdmitted cfg now out i).1.activeRequests = i.activeRequests
    ∧ (generateTrace out).getLast? = some .released := by
  have hdisp : (dispatchStep cfg now out (admitRequest i)).1.activeRequests
      = i.activeRequests + 1 := by
    cases out with
    | response status hs hasBody =>
      by_cases hok : isOkStatus status <;>
        simp [dispatchStep_response, admitRequest, hok]
    | error t =>
      simp [dispatchStep_error, openCircuitIfNeeded_activeRequests, admitRequest]
  refine ⟨rfl, hdisp, ?_, ?_⟩
  · rw [handleAdmitted_fst, releaseRequest]
    simp [hdisp]
  · cases out with
    | response status hs hasBody => cases hasBody <;> rfl
    | error t => rfl

/-- Witness for claim C4 at a concrete input: a streamed 200 response leaves
the picked backend's `activeRequests` at its pre-request value. -/
theorem activeRequests_balance_witness :
    (handleAdmitted defaultConfig 5 (.response 200 [] true) exInstA).1.activeRequests
      = exInstA.activeRequests :=
  (activeRequests_balance defaultConfig 5 (.response 200 [] true) exInstA).2.2.1

/-- Counterexample to claim C4 as stated: for a streamed 200 response the
handler's effect sequence schedules the release (`setImmediate` in the
`finally` block) with no stream-completion effect anywhere in it — the
decrement is not placed after the streamed body finishes, since the handler
attaches no completion listener to the piped stream. -/
theorem release_not_after_stream :
    ProxyEvent.released ∈ generateTrace (.response 200 [] true)
    ∧ ProxyEvent.streamFinished ∉ generateTrace (.response 200 [] true)
    ∧ generateTrace (.response 200 [] true)
        = [.admitted, .dispatched, .headersSent, .streamStarted, .released] := by decide

/-- Claim C7. A backend response's status is propagated verbatim and a header is
forwarded iff it is an upstream header whose lowercased name is not one of
the connection-management names (connection, keep-alive, transfer-encoding,
upgrade); a body present as a stream is relayed in streaming mode (piped, not
buffered); and the mid-stream error callback marks the backend unhealthy
while changing no other field — after status and headers are already sent,
as the handler's effect order shows. -/
theorem relay_spec (cfg : Config) (now : Nat) (i : Instance) (status : Nat)
    (hs : List (String × String)) (hasBody : Bool) :
    (handleAdmitted cfg now (.response status hs hasBody) i).2.status = status
    ∧ (∀ kv, kv ∈ (handleAdmitted cfg now (.response status hs hasBody) i).2.headers ↔
        kv ∈ hs ∧ kv.1.toLower ∉ connectionHeaderNames)
    ∧ (handleAdmitted cfg now (.response status hs hasBody) i).2.streamed = hasBody
    ∧ (streamErrorStep i).healthy = false
    ∧ (streamErrorStep i).activeRequests = i.activeRequests
    ∧ (streamErrorStep i).consecutiveFailures = i.consecutiveFailures
    ∧ (streamErrorStep i).circuitOpenUntil = i.circuitOpenUntil
    ∧ generateTrace (.response status hs true)
        = [.admitted, .dispatched, .headersSent, .streamStarted, .released] := by
  have hresp : (handleAdmitted cfg now (.response status hs hasBody) i).2
      = { status := status, errorFlag := false, message := none, playSignal := none,
          headers := forwardHeaders hs, streamed := hasBody } := by
    rw [handleAdmitted, dispatchStep_response]
  refine ⟨by rw [hresp], ?_, by rw [hresp], rfl, rfl, rfl, rfl, rfl⟩
  intro kv
  rw [hresp]
  show kv ∈ forwardHeaders hs ↔ _
  rw [forwardHeaders, List.mem_filter]
  constructor
  · intro ⟨h1, h2⟩
    refine ⟨h1, ?_⟩
    simpa using h2
  · intro ⟨h1, h2⟩
    refine ⟨h1, ?_⟩
    simpa using h2

/-- Witness for claim C7 at a concrete input: the relayed status is the
backend's own, and the stream-error callback marks the backend unhealthy. -/
theorem relay_spec_witness :
    (handleAdmitted defaultConfig 5
        (.response 200 [("content-type", "audio/wav"), ("connection", "close")] true)
        exInstC).2.status = 200
    ∧ (streamErrorStep exInstC).healthy = false := by
  have h := relay_spec defaultConfig 5 exInstC 200
    [("content-type", "audio/wav"), ("connection", "close")] true
  exact ⟨h.1, h.2.2.2.1⟩

/-! ## Response taxonomy -/

theorem handleAdmitted_snd_error (cfg : Config) (now : Nat) (t : Bool) (i : Instance) :
    (handleAdmitted cfg now (.error t) i).2
      = if t then timeoutResponse else failureResponse := by
  rw [handleAdmitted, dispatchStep_error]

theorem handleAdmitted_snd_errorFlag (cfg : Config) (now : Nat) (status : Nat)
    (hs : List (String × String)) (hasBody : Bool) (i : Instance) :
    (handleAdmitted cfg now (.response status hs hasBody) i).2.errorFlag = false := by
  rw [handleAdmitted, dispatchStep_response]

/-- Claim C5. Every gateway-generated failure of `POST /generate` is exactly one
of three structured responses, each under exactly its condition: the 503
`NO_TTS_AVAILABLE` body iff no backend is eligible at selection time — and
then no backend state is mutated; the 504 `TTS_INSTANCE_TIMEOUT` body iff a
backend was picked and the dispatch threw with the timeout timer fired; the
502 `TTS_INSTANCE_FAILURE` body iff a backend was picked and the dispatch
threw without the timer having fired. (A backend response, 2xx or not, is
relayed verbatim and is none of the three.) -/
theorem generate_response_taxonomy (cfg : Config) (now : Nat) (out : DispatchOutcome)
    (insts : List Instance) :
    ((handleGenerate cfg now out insts).2 = noTTSResponse
        ↔ ¬ ∃ i ∈ insts, eligible cfg now i = true)
    ∧ ((handleGenerate cfg now out insts).2 = noTTSResponse →
        (handleGenerate cfg now out insts).1 = insts)
    ∧ ((handleGenerate cfg now out insts).2 = timeoutResponse
        ↔ (∃ i ∈ insts, eligible cfg now i = true) ∧ out = .error true)
    ∧ ((handleGenerate cfg now out insts).2 = failureResponse
        ↔ (∃ i ∈ insts, eligible cfg now i = true) ∧ out = .error false) := by
  rcases hp : pickPair cfg now insts with _ | ⟨k, b⟩
  · have hno : ¬ ∃ i ∈ insts, eligible cfg now i = true := by
      intro ⟨i, hi, helig⟩
      have := (pickPair_eq_none_iff cfg now insts).mp hp i hi
      rw [helig] at this
      cases this
    have hgen : handleGenerate cfg now out insts = (insts, noTTSResponse) := by
      rw [handleGenerate, hp]
    refine ⟨iff_of_true (by rw [hgen]) hno, fun _ => by rw [hgen], ?_, ?_⟩
    · apply iff_of_false
      · intro h
        rw [hgen] at h
        have h2 : noTTSResponse = timeoutResponse := h
        exact absurd h2 (by decide)
      · intro ⟨hex, _⟩
        exact hno hex
    · apply iff_of_false
      · intro h
        rw [hgen] at h
        have h2 : noTTSResponse = failureResponse := h
        exact absurd h2 (by decide)
      · intro ⟨hex, _⟩
        exact hno hex
  · have hex : ∃ i ∈ insts, eligible cfg now i = true := by
      apply (pickPair_isSome_iff cfg now insts).mp
      rw [hp]
      rfl
    have hgen : (handleGenerate cfg now out insts).2 = (handleAdmitted cfg now out b).2 := by
      rw [handleGenerate, hp]
    cases out with
    | response status hs hasBody =>
      have hflag : (handleGenerate cfg now (.response status hs hasBody) insts).2.errorFlag
          = false := by
        rw [hgen]
        exact handleAdmitted_snd_errorFlag cfg now status hs hasBody b
      refine ⟨?_, ?_, ?_, ?_⟩
      · apply iff_of_false
        · intro h
          rw [h] at hflag
          exact absurd hflag (by decide)
        · intro hno
          exact hno hex
      · intro h
        rw [h] at hflag
        exact absurd hflag (by decide)
      · apply iff_of_false
        · intro h
          rw [h] at hflag
          exact absurd hflag (by decide)
        · intro ⟨_, hout⟩
          cases hout
      · apply iff_of_false
        · intro h
          rw [h] at hflag
          exact absurd hflag (by decide)
        · intro ⟨_, hout⟩
          cases hout
    | error t =>
      have hresp : (handleGenerate cfg now (.error t) insts).2
          = if t then timeoutResponse else failureResponse := by
        rw [hgen]
        exact handleAdmitted_snd_error cfg now t b
      cases t with
      | true =>
        rw [if_pos rfl] at hresp
        refine ⟨?_, ?_, iff_of_true hresp ⟨hex, rfl⟩, ?_⟩
        · apply iff_of_false
          · intro h
            rw [hresp] at h
            exact absurd h (by decide)
          · intro hno
            exact hno hex
        · intro h
          rw [hresp] at h
          exact absurd h (by decide)
        · apply iff_of_false
          · intro h
            rw [hresp] at h
            exact absurd h (by decide)
          · intro ⟨_, hout⟩
            cases hout
      | false =>
        rw [if_neg (by simp)] at hresp
        refine ⟨?_, ?_, ?_, iff_of_true hresp ⟨hex, rfl⟩⟩
        · apply iff_of_false
          · intro h
            rw [hresp] at h
            exact absurd h (by decide)
          · intro hno
            exact hno hex
        · intro h
          rw [hresp] at h
          exact absurd h (by decide)
        · apply iff_of_false
          · intro h
            rw [hresp] at h
            exact absurd h (by decide)
          · intro ⟨_, hout⟩
            cases hout

/-- Witness for claim C5: against an empty registry the handler answers the 503
`NO_TTS_AVAILABLE` body and mutates nothing. -/
theorem generate_response_taxonomy_witness :
    (handleGenerate defaultConfig 0 (.error true) ([] : List Instance)).2 = noTTSResponse
    ∧ (handleGenerate defaultConfig 0 (.error true) ([] : List Instance)).1 = [] := by
  have h := generate_response_taxonomy defaultConfig 0 (.error true) []
  have h1 : (handleGenerate defaultConfig 0 (.error true) ([] : List Instance)).2
      = noTTSResponse :=
    h.1.mpr (by intro ⟨i, hi, _⟩; cases hi)
  exact ⟨h1, h.2.1 h1⟩

/-! ## Status reporting -/

/-- Claim C9 (corrected). `GET /health` is a pure read (a function of the
registry snapshot, writing no backend state) whose `healthyCount` counts the
backends that are healthy with a closed circuit — the per-backend concurrency
cap is not consulted, so this can exceed the number of backends actually
eligible for traffic; the status flag is `"ok"` exactly when that count is
positive and `"degraded"` otherwise, alongside a per-backend summary. -/
theorem health_endpoint_spec (insts : List Instance) (now : Nat) :
    (healthEndpoint insts now).healthyCount
      = (insts.filter (fun i => i.healthy && decide (i.circuitOpenUntil ≤ now))).length
    ∧ ((healthEndpoint insts now).status = "ok"
        ↔ 0 < (healthEndpoint insts now).healthyCount)
    ∧ ((healthEndpoint insts now).status = "ok"
        ∨ (healthEndpoint insts now).status = "degraded")
    ∧ (healthEndpoint insts now).instances = insts.map summarize := by
  by_cases h : 0 < (insts.filter
      (fun i => i.healthy && decide (i.circuitOpenUntil ≤ now))).length
  · refine ⟨rfl, ?_, ?_, rfl⟩
    · simp [healthEndpoint, h]
    · left
      simp [healthEndpoint, h]
  · refine ⟨rfl, ?_, ?_, rfl⟩
    · simp [healthEndpoint, h]
    · right
      simp [healthEndpoint, h]

/-- Witness for claim C9 at a concrete input: the aggregate status flag is
one of "ok" and "degraded". -/
theorem health_endpoint_spec_witness :
    (healthEndpoint [cexAtCap] 60).status = "ok"
    ∨ (healthEndpoint [cexAtCap] 60).status = "degraded" :=
  (health_endpoint_spec [cexAtCap] 60).2.2.1

/-- Counterexample to claim C9 as stated: a healthy, circuit-closed backend
saturated at the default concurrency cap is not eligible for traffic, yet
`healthyCount` reports it — the count does not equal the number of eligible
backends. -/
theorem healthyCount_ignores_cap :
    (healthEndpoint [cexAtCap] 60).healthyCount = 1
    ∧ ([cexAtCap].filter (eligible defaultConfig 60)).length = 0 := by decide

/-! ## Body pipeline -/

/-- Counterexample to claim C8 as stated: the body middleware configured with
`limit: "2mb"` rejects a request whose body is one byte over that limit, so
the inbound body is not "never rejected by size". -/
theorem body_size_limit_rejects :
    jsonBodyAdmits (bodyLimitBytes + 1) = false := by decide

/-- Claim C8 (corrected). The inbound `/generate` body is not relayed as an
opaque payload: it is parsed as JSON by the body middleware (which rejects
bodies over the 2 MiB limit), and the parsed value — an empty object when
absent — is re-serialized with `JSON.stringify` and sent to the chosen
backend's `/generate` as a `POST` with a JSON content type. -/
theorem body_pipeline_spec (reqBody : Option Json) (n : Nat) :
    (buildUpstreamRequest reqBody).method = "POST"
    ∧ (buildUpstreamRequest reqBody).contentType = "application/json"
    ∧ (buildUpstreamRequest reqBody).body = Json.stringify (reqBody.getD (Json.obj []))
    ∧ (buildUpstreamRequest none).body = "\x7b\x7d"
    ∧ (jsonBodyAdmits n = true ↔ n ≤ bodyLimitBytes)
    ∧ Json.stringify (Json.obj [("text", Json.str "hi"), ("id", Json.num 7)])
        = "\x7b\"text\":\"hi\",\"id\":7\x7d" := by
  refine ⟨rfl, rfl, rfl, by decide, ?_, by decide⟩
  simp [jsonBodyAdmits]

/-- Witness for claim C8 at a concrete input: a concrete request is forwarded
with the JSON content type. -/
theorem body_pipeline_spec_witness :
    (buildUpstreamRequest (some (Json.str "x"))).contentType = "application/json" :=
  (body_pipeline_spec (some (Json.str "x")) 0).2.1

/-! ## Cold start -/

theorem eligible_false_of_unhealthy (cfg : Config) (now : Nat) (i : Instance)
    (h : i.healthy = false) : eligible cfg now i = false := by
  simp [eligible, h]

theorem probeInstance_failed_unhealthy (cfg : Config) (now : Nat) (out : ProbeOutcome)
    (i : Instance) (h : out.failed = true) :
    (probeInstance cfg now out i).healthy = false := by
  by_cases hskip : now < i.circuitOpenUntil
  · simp [probeInstance, hskip]
  · cases out with
    | response ok =>
      cases ok with
      | true => simp [ProbeOutcome.failed] at h
      | false => simp [probeInstance, hskip, openCircuitIfNeeded_healthy]
    | error => simp [probeInstance, hskip, openCircuitIfNeeded_healthy]

theorem stepEvent_unhealthy (cfg : Config) (insts : List Instance) (e : SysEvent)
    (hall : ∀ i ∈ insts, i.healthy = false) (he : probeSucceeded e = false) :
    ∀ i ∈ stepEvent cfg insts e, i.healthy = false := by
  cases e with
  | probe k now out =>
    cases hg : insts.get? k with
    | none =>
      intro i hi
      simp only [stepEvent, hg] at hi
      exact hall i hi
    | some j =>
      intro i hi
      simp only [stepEvent, hg] at hi
      rcases List.mem_or_eq_of_mem_set hi with h | h
      · exact hall i h
      · subst h
        apply probeInstance_failed_unhealthy
        cases out with
        | response ok =>
          cases ok with
          | true => simp [probeSucceeded] at he
          | false => rfl
        | error => rfl
  | generate now out =>
    have hp : pickPair cfg now insts = none := by
      apply (pickPair_eq_none_iff cfg now insts).mpr
      intro i hi
      exact eligible_false_of_unhealthy cfg now i (hall i hi)
    intro i hi
    simp only [stepEvent, handleGenerate, hp] at hi
    exact hall i hi
  | streamError k =>
    cases hg : insts.get? k with
    | none =>
      intro i hi
      simp only [stepEvent, hg] at hi
      exact hall i hi
    | some j =>
      intro i hi
      simp only [stepEvent, hg] at hi
      rcases List.mem_or_eq_of_mem_set hi with h | h
      · exact hall i h
      · subst h
        rfl

theorem runEvents_unhealthy (cfg : Config) (evs : List SysEvent) :
    ∀ insts, (∀ i ∈ insts, i.healthy = false) → noProbeSuccess evs = true →
      ∀ i ∈ runEvents cfg insts evs, i.healthy = false := by
  induction evs with
  | nil =>
    intro insts h _
    simpa [runEvents] using h
  | cons e evs ih =>
    intro insts h hnp
    rw [noProbeSuccess, List.all_cons] at hnp
    obtain ⟨h1, h2⟩ := (Bool.and_eq_true _ _).mp hnp
    have h1x : probeSucceeded e = false := by simpa using h1
    have h2x : noProbeSuccess evs = true := h2
    rw [runEvents, List.foldl_cons]
    exact ih (stepEvent cfg insts e) (stepEvent_unhealthy cfg insts e h h1x) h2x

/-- Claim C10. Every backend is initialized with `healthy = false`,
`activeRequests = 0`, `consecutiveFailures = 0` and `circuitOpenUntil = 0`;
the only transition that ever sets `healthy` to `true` is a probe receiving
an OK response (the proxy and stream-error paths only clear it), so after any
sequence of events containing no successful probe every backend is still
unhealthy and every `POST /generate` gets the 503 no-TTS-available
response. -/
theorem cold_start_returns_503 (cfg : Config) (ports : List Nat) (evs : List SysEvent)
    (now : Nat) (out : DispatchOutcome) :
    (∀ i ∈ initInstances ports, i.healthy = false ∧ i.activeRequests = 0
        ∧ i.consecutiveFailures = 0 ∧ i.circuitOpenUntil = 0)
    ∧ (noProbeSuccess evs = true →
        (∀ i ∈ runEvents cfg (initInstances ports) evs, i.healthy = false)
        ∧ (handleGenerate cfg now out (runEvents cfg (initInstances ports) evs)).2
            = noTTSResponse) := by
  have hinit : ∀ i ∈ initInstances ports, i.healthy = false ∧ i.activeRequests = 0
      ∧ i.consecutiveFailures = 0 ∧ i.circuitOpenUntil = 0 := by
    intro i hi
    obtain ⟨p, _, hpi⟩ := List.mem_map.mp hi
    subst hpi
    exact ⟨rfl, rfl, rfl, rfl⟩
  refine ⟨hinit, ?_⟩
  intro hnp
  have hall := runEvents_unhealthy cfg evs (initInstances ports)
    (fun i hi => (hinit i hi).1) hnp
  refine ⟨hall, ?_⟩
  have hp : pickPair cfg now (runEvents cfg (initInstances ports) evs) = none := by
    apply (pickPair_eq_none_iff _ _ _).mpr
    intro i hi
    exact eligible_false_of_unhealthy cfg now i (hall i hi)
  rw [handleGenerate, hp]

/-- Witness for claim C10: from two freshly initialized backends, after a failed
probe of each and one (503-answered) request, a further request still gets
the 503 no-TTS-available response. -/
theorem cold_start_returns_503_witness :
    (handleGenerate defaultConfig 9999 (.error false)
        (runEvents defaultConfig (initInstances [8000, 8001])
          [.probe 0 0 .error, .probe 1 0 (.response false), .generate 50 (.error true)])).2
      = noTTSResponse :=
  ((cold_start_returns_503 defaultConfig [8000, 8001]
      [.probe 0 0 .error, .probe 1 0 (.response false), .generate 50 (.error true)]
      9999 (.error false)).2 (by decide)).2

end TTSLB
